import Mathlib

/-!
Verification of the `ai_module` package of the Smart todo backend
(`task_analyzer.py`, `ai_client.py`, `context_processor.py`).

The Python code is shallowly embedded: pure string heuristics become Lean
functions on `String`; the network (`requests.post`) and the secondary
provider call are modelled by explicit `Option` parameters (`none` means the
call raised an exception); `json.loads` is modelled by an abstract parse
function passed in as a parameter; `datetime.now() + timedelta(days=k)` is
modelled by the day offset `k`; Python `float` arithmetic on the small
fractions involved is modelled exactly by `ℚ`.
-/

namespace Smart

/-! ### Python string primitives

`needle in haystack`, `str.lower()`, `str.split()`, `str.count(c)`,
modelled on `List Char` / `String` (ASCII, which is all the code uses). -/

/-- Boolean test that the first list is an initial segment of the second. -/
def listPrefixOf : List Char → List Char → Bool
  | [], _ => true
  | _ :: _, [] => false
  | a :: as, b :: bs => a == b && listPrefixOf as bs

/-- Boolean substring containment on character lists: Python `needle in haystack`. -/
def listContains (needle : List Char) : List Char → Bool
  | [] => listPrefixOf needle []
  | c :: rest => listPrefixOf needle (c :: rest) || listContains needle rest

/-- Python `needle in hay` for strings. -/
def strContains (hay needle : String) : Bool :=
  listContains needle.data hay.data

/-- Python `s.lower()` (ASCII case folding, as used by the code). -/
def strLower (s : String) : String :=
  ⟨s.data.map Char.toLower⟩

/-- Python `any(word in text for word in words)`. -/
def anyKeyword (text : String) (words : List String) : Bool :=
  words.any (fun w => strContains text w)

/-- Python `\s` for the ASCII whitespace the code can meet. -/
def isSpaceChar (c : Char) : Bool :=
  c == ' ' || c == '\t' || c == '\n' || c == '\r' || c == '\x0b' || c == '\x0c'

/-- Python `\w`: ASCII word characters. -/
def isWordChar (c : Char) : Bool :=
  c.isAlphanum || c == '_'

/-- Python `str.split()`: split on whitespace runs, dropping empty pieces. -/
def splitWs (s : String) : List String :=
  ((s.data.splitOnP (fun c => isSpaceChar c)).map (fun l => String.mk l)).filter
    (fun w => w ≠ "")

/-- Python `str.strip()`: drop whitespace from both ends. -/
def strStrip (s : String) : String :=
  ⟨((s.data.dropWhile (fun c => isSpaceChar c)).reverse.dropWhile
      (fun c => isSpaceChar c)).reverse⟩

/-! ### `context_processor.ContextProcessor._calculate_urgency` -/

/-- Embeds `_calculate_urgency`: urgency level 1..10 from keyword tiers and `!` count. -/
def calculateUrgency (text : String) : Nat :=
  min
    (1
      + (if anyKeyword (strLower text) ["urgent", "asap", "immediately", "emergency"]
          then 4 else 0)
      + (if anyKeyword (strLower text) ["important", "priority", "deadline"]
          then 2 else 0)
      + (if anyKeyword (strLower text) ["today", "now", "tonight"] then 3
         else if anyKeyword (strLower text) ["tomorrow", "this week"] then 2 else 0)
      + min (text.data.count '!') 2)
    10

/-! ### `context_processor.ContextProcessor.analyze_sentiment` -/

/-- The fixed positive-word list of `analyze_sentiment`. -/
def positiveWords : List String :=
  ["good", "great", "excellent", "amazing", "wonderful", "fantastic",
   "love", "like", "enjoy", "happy", "excited", "pleased", "satisfied"]

/-- The fixed negative-word list of `analyze_sentiment`. -/
def negativeWords : List String :=
  ["bad", "terrible", "awful", "hate", "dislike", "angry", "frustrated",
   "upset", "annoyed", "disappointed", "worried", "stressed", "urgent"]

/-- Embeds `sum(1 for word in words if word in text_lower)`. -/
def wordScore (textLower : String) (words : List String) : Nat :=
  words.countP (fun w => strContains textLower w)

/-- Embeds `analyze_sentiment`: fraction of present positive words among present
positive and negative words, `0.5` when neither side is present. -/
def analyzeSentiment (text : String) : ℚ :=
  let p := wordScore (strLower text) positiveWords
  let n := wordScore (strLower text) negativeWords
  if p + n = 0 then 1/2 else (p : ℚ) / ((p : ℚ) + (n : ℚ))

/-! ### `ai_client.AIClient`

The network is abstracted: `net : Option (Nat × String)` is the outcome of
`requests.post` on the LM Studio endpoint (`none` = the request raised;
`some (status, text)` = HTTP status together with the extracted
`choices[0].text` of the JSON body).  `sec : Option String` is the outcome of
the OpenAI chat call (`none` = it raised).  `key : Option String` is
`os.getenv('OPENAI_API_KEY')`.  `fb3 : String` stands for
`(datetime.now() + timedelta(days=3)).strftime("%Y-%m-%d")`, the only
time-dependent fallback string. -/

/-- The sentinel returned by `_fallback_analysis` when no keyword matches. -/
def unavailableSentinel : String := "Analysis unavailable - using defaults"

/-- Embeds `AIClient._fallback_analysis`: keyword-dispatched deterministic fallback. -/
def fallbackAnalysis (fb3 : String) (prompt : String) : String :=
  if strContains (strLower prompt) "priority" then "0.7"
  else if strContains (strLower prompt) "deadline" then fb3
  else if strContains (strLower prompt) "category" then "General"
  else if strContains (strLower prompt) "tags" then "task, general"
  else unavailableSentinel

/-- Embeds `AIClient.call_lm_studio`: on HTTP 200 the stripped completion text,
otherwise (non-200 status or exception) the deterministic fallback. -/
def callLMStudio (net : Option (Nat × String)) (fb3 : String) (prompt : String) :
    String :=
  match net with
  | none => fallbackAnalysis fb3 prompt
  | some (status, text) =>
      if status == 200 then strStrip text else fallbackAnalysis fb3 prompt

/-- Embeds `AIClient.call_openai`: without a key, or when the chat call raises,
fall back to `call_lm_studio`; otherwise the stripped chat content. -/
def callOpenAI (key : Option String) (net : Option (Nat × String))
    (sec : Option String) (fb3 : String) (prompt : String) : String :=
  match key with
  | none => callLMStudio net fb3 prompt
  | some _ =>
      match sec with
      | some content => strStrip content
      | none => callLMStudio net fb3 prompt

/-- Embeds `AIClient.analyze_with_ai`: LM Studio first; if its result contains
`"Analysis unavailable"` and a key is configured, use `call_openai` instead. -/
def analyzeWithAI (key : Option String) (net : Option (Nat × String))
    (sec : Option String) (fb3 : String) (prompt : String) : String :=
  let result := callLMStudio net fb3 prompt
  if strContains result "Analysis unavailable" && key.isSome then
    callOpenAI key net sec fb3 prompt
  else result

/-! ### `task_analyzer.TaskAnalyzer` prompts

The f-string templates, as concatenations of fixed chunks and the
interpolated arguments (triple-quoted strings keep their newlines and
8-space indentation). -/

/-- First chunk of the `analyze_task_priority` prompt. -/
def priorityPromptA : String :=
  "\n        Analyze the priority of this task on a scale of 0.0 to 1.0 (where 1.0 is highest priority):\n        \n        Task: "

/-- Chunk between title and description of the `analyze_task_priority` prompt. -/
def priorityPromptB : String := "\n        Description: "

/-- Chunk after the description of the `analyze_task_priority` prompt. -/
def priorityPromptC : String := "\n        "

/-- Final chunk of the `analyze_task_priority` prompt. -/
def priorityPromptD : String :=
  "\n        \n        Consider:\n        1. Urgency and deadlines\n        2. Impact and importance\n        3. Dependencies and context\n        4. Keywords indicating priority\n        \n        Respond with only a decimal number between 0.0 and 1.0\n        "

/-- The full `analyze_task_priority` prompt. -/
def priorityPrompt (title desc ctxInfo : String) : String :=
  priorityPromptA ++ title ++ priorityPromptB ++ desc ++ priorityPromptC
    ++ ctxInfo ++ priorityPromptD

/-- First chunk of the `suggest_deadline` prompt. -/
def deadlinePromptA : String :=
  "\n        Suggest a realistic deadline for this task. Consider the complexity and current workload.\n        \n        Task: "

/-- Chunk between title and description of the `suggest_deadline` prompt. -/
def deadlinePromptB : String := "\n        Description: "

/-- Chunk before the workload of the `suggest_deadline` prompt. -/
def deadlinePromptC : String := "\n        Current workload (1-10): "

/-- Final chunk of the `suggest_deadline` prompt. -/
def deadlinePromptD : String :=
  "\n        \n        Based on the task complexity, suggest how many days from now this should be completed.\n        Respond with only a number (days from now).\n        "

/-- The full `suggest_deadline` prompt. -/
def deadlinePrompt (title desc : String) (workload : Nat) : String :=
  deadlinePromptA ++ title ++ deadlinePromptB ++ desc ++ deadlinePromptC
    ++ toString workload ++ deadlinePromptD

/-! ### Number extraction from AI responses -/

/-- Numeric value of a digit run. -/
def digitsVal (ds : List Char) : Nat :=
  ds.foldl (fun acc c => acc * 10 + (c.toNat - '0'.toNat)) 0

/-- Embeds `re.findall(r'\d+', s)[0]` as a `Nat`: value of the first maximal digit
run, `none` if the string has no digit. -/
def firstNatRun : List Char → Option Nat
  | [] => none
  | c :: rest =>
      if c.isDigit then some (digitsVal ((c :: rest).takeWhile Char.isDigit))
      else firstNatRun rest

/-- Regex `0\.\d+|1\.0` match attempt at one position, as the parsed value. -/
def matchPriorityAt : List Char → Option ℚ
  | '0' :: '.' :: rest =>
      let ds := rest.takeWhile Char.isDigit
      if ds.isEmpty then none
      else some ((digitsVal ds : ℚ) / ((10 : ℚ) ^ ds.length))
  | '1' :: '.' :: '0' :: _ => some 1
  | _ => none

/-- Embeds `float(re.findall(r'0\.\d+|1\.0', s)[0])`: the first (leftmost) match. -/
def firstPriorityNum : List Char → Option ℚ
  | [] => none
  | c :: rest =>
      match matchPriorityAt (c :: rest) with
      | some q => some q
      | none => firstPriorityNum rest

/-! ### `task_analyzer.TaskAnalyzer` operations -/

/-- Embeds `_calculate_fallback_priority`: tiered keyword fallback on
`f"{title} {description}".lower()`. -/
def calculateFallbackPriority (title desc : String) : ℚ :=
  let text := strLower (title ++ " " ++ desc)
  if anyKeyword text ["urgent", "critical", "asap", "emergency"] then 9/10
  else if anyKeyword text ["important", "priority", "deadline"] then 7/10
  else if anyKeyword text ["meeting", "call", "presentation"] then 6/10
  else 1/2

/-- Embeds `_calculate_fallback_deadline`, as the day offset added to `now`. -/
def calculateFallbackDeadlineDays (desc : String) : Nat :=
  let text := strLower desc
  if anyKeyword text ["urgent", "asap", "today"] then 1
  else if anyKeyword text ["tomorrow", "soon"] then 2
  else if anyKeyword text ["week", "weekly"] then 7
  else 3

/-- The parsing step of `analyze_task_priority` applied to the AI result:
first `0.\d+`/`1.0` match, else the default `0.5`. -/
def priorityFromAIResult (result : String) : ℚ :=
  match firstPriorityNum result.data with
  | some q => q
  | none => 1/2

/-- Embeds `analyze_task_priority` without context data, when the LM Studio request
raises and no OpenAI key is configured (`analyze_with_ai` does not raise
then, so the `except` branch is not taken). -/
def analyzeTaskPriorityUnavailable (fb3 title desc : String) : ℚ :=
  priorityFromAIResult
    (analyzeWithAI none none none fb3 (priorityPrompt title desc ""))

/-- The parsing step of `suggest_deadline` applied to the AI result, as the
day offset added to `now`: first integer capped at 30, else the default 3. -/
def deadlineDaysFromAIResult (result : String) : Nat :=
  match firstNatRun result.data with
  | some d => min d 30
  | none => 3

/-- Embeds `suggest_deadline` as a day offset, when the LM Studio request raises and
no OpenAI key is configured. -/
def suggestDeadlineUnavailableDays (fb3 title desc : String) (workload : Nat) :
    Nat :=
  deadlineDaysFromAIResult
    (analyzeWithAI none none none fb3 (deadlinePrompt title desc workload))

/-- Embeds `suggest_deadline` as a day offset, for an arbitrary gateway outcome. -/
def suggestDeadlineDays (key : Option String) (net : Option (Nat × String))
    (sec : Option String) (fb3 title desc : String) (workload : Nat) : Nat :=
  deadlineDaysFromAIResult
    (analyzeWithAI key net sec fb3 (deadlinePrompt title desc workload))

/-- The parsing step of `suggest_tags` applied to the AI result:
`[tag.strip().lower() for tag in result.split(',')][:5]`. -/
def tagsFromAIResult (result : String) : List String :=
  ((result.splitOn ",").map (fun t => strLower (strStrip t))).take 5

/-- Embeds `_suggest_fallback_tags`: keyword-rule tags on
`f"{title} {description}".lower()`, `['task']` when no rule fires, capped at 3. -/
def suggestFallbackTags (title desc : String) : List String :=
  let text := strLower (title ++ " " ++ desc)
  let tags :=
    (if anyKeyword text ["urgent", "asap", "critical"] then ["urgent"] else [])
    ++ (if anyKeyword text ["meeting", "call"] then ["meeting"] else [])
    ++ (if anyKeyword text ["work", "office", "project"] then ["work"] else [])
    ++ (if anyKeyword text ["personal", "home", "family"] then ["personal"] else [])
    ++ (if anyKeyword text ["follow-up", "followup", "follow"] then ["follow-up"] else [])
  (if tags.isEmpty then ["task"] else tags).take 3

/-! ### `context_processor.ContextProcessor.extract_keywords` -/

/-- The fixed stop-word set of `extract_keywords`. -/
def stopWords : List String :=
  ["the", "a", "an", "and", "or", "but", "in", "on", "at", "to", "for",
   "of", "with", "by", "from", "as", "is", "are", "was", "were", "be",
   "been", "being", "have", "has", "had", "do", "does", "did", "will",
   "would", "could", "should", "may", "might", "can", "this", "that",
   "these", "those", "i", "you", "he", "she", "it", "we", "they"]

/-- Embeds `extract_keywords`: lower-case, map non-word non-space characters to a
space, split on whitespace, keep words of length > 2 outside the stop-word
set, deduplicate, truncate to 10.  Python materialises the deduplicated
words through `list(set(...))`, whose order is unspecified; the embedding
fixes the first-occurrence order (a deterministic refinement — no claim
below depends on which order the set iterates in). -/
def extractKeywords (text : String) : List String :=
  let cleanText : String :=
    ⟨(strLower text).data.map (fun c => if isWordChar c || isSpaceChar c then c else ' ')⟩
  let ws := splitWs cleanText
  let keywords := ws.filter (fun w => w.length > 2 && !(stopWords.contains w))
  keywords.eraseDups.take 10

/-! ### `context_processor.ContextProcessor.detect_priority_indicators` -/

/-- Embeds `ContextProcessor.priority_keywords`. -/
def priorityIndicatorKeywords : List String :=
  ["urgent", "asap", "immediately", "deadline", "due", "important",
   "critical", "priority", "rush", "emergency", "today", "tomorrow"]

/-- Embeds `detect_priority_indicators`: the priority keywords present in the
lower-cased text, in keyword-list scan order. -/
def detectPriorityIndicators (text : String) : List String :=
  priorityIndicatorKeywords.filter (fun k => strContains (strLower text) k)

/-! ### `context_processor.ContextProcessor.extract_dates_and_times`

`re.findall` of the fixed pattern list on the lower-cased text.  Each
pattern is embedded as a matcher at one position (backtracking the greedy
`\d{1,2}` exactly as the regex engine does) and driven left-to-right with
non-overlapping matches.  For the time pattern, which contains a group,
`findall` returns the group text, so does the embedding. -/

/-- Consume exactly `n` digits. -/
def dropDigits : Nat → List Char → Option (List Char)
  | 0, cs => some cs
  | _ + 1, [] => none
  | n + 1, c :: cs => if c.isDigit then dropDigits n cs else none

/-- Greedy `\d{1,2}` followed by the continuation `k`, backtracking from two
digits to one when the continuation fails. -/
def digits12 (cs : List Char) (k : List Char → Option (List Char)) :
    Option (List Char) :=
  match dropDigits 2 cs with
  | some rest2 =>
      match k rest2 with
      | some r => some r
      | none => (dropDigits 1 cs).bind k
  | none => (dropDigits 1 cs).bind k

/-- Consume the literal character `sep` then run `k`. -/
def afterSep (sep : Char) (k : List Char → Option (List Char))
    (cs : List Char) : Option (List Char) :=
  match cs with
  | c :: r => if c == sep then k r else none
  | [] => none

/-- Embeds `\d{1,2}sep\d{1,2}sep\d{4}` (patterns `MM/DD/YYYY` and `MM-DD-YYYY`). -/
def mNumDate (sep : Char) (cs : List Char) : Option (List Char) :=
  digits12 cs (afterSep sep (fun cs2 => digits12 cs2 (afterSep sep (dropDigits 4))))

/-- Embeds `\d{4}-\d{1,2}-\d{1,2}` (pattern `YYYY-MM-DD`). -/
def mIsoDate (cs : List Char) : Option (List Char) :=
  (dropDigits 4 cs).bind
    (afterSep '-' (fun cs2 => digits12 cs2 (afterSep '-' (fun cs3 => digits12 cs3 some))))

/-- Embeds `\s*(am|pm)?` after the minutes of the time pattern; returns the rest and
the group text (`""` when the optional group is unmatched, as `findall`
reports it). -/
def mTimeTail (cs : List Char) : Option (List Char × String) :=
  let rest := cs.dropWhile (fun c => isSpaceChar c)
  if listPrefixOf ['a', 'm'] rest then some (rest.drop 2, "am")
  else if listPrefixOf ['p', 'm'] rest then some (rest.drop 2, "pm")
  else some (rest, "")

/-- Embeds `\d{1,2}:\d{2}\s*(am|pm)?`; returns the rest and the group text. -/
def mTime (cs : List Char) : Option (List Char × String) :=
  (digits12 cs (afterSep ':' (dropDigits 2))).bind mTimeTail

/-- Adapt a rest-returning matcher to a (consumed, emitted text) matcher that
emits the whole match. -/
def wholeMatcher (m : List Char → Option (List Char)) (cs : List Char) :
    Option (Nat × String) :=
  match m cs with
  | some rest => some (cs.length - rest.length, ⟨cs.take (cs.length - rest.length)⟩)
  | none => none

/-- Alternation of literals, tried in order (regex `lit1|lit2|...`). -/
def matchAnyLit (lits : List String) (cs : List Char) : Option (Nat × String) :=
  match lits with
  | [] => none
  | l :: ls => if listPrefixOf l.data cs then some (l.data.length, l) else matchAnyLit ls cs

/-- The time pattern as a (consumed, group) matcher. -/
def timeMatcher (cs : List Char) : Option (Nat × String) :=
  match mTime cs with
  | some (rest, g) => some (cs.length - rest.length, g)
  | none => none

/-- Embeds `re.findall` driver: scan left to right, emitting non-overlapping
matches. -/
def findAllMatches (m : List Char → Option (Nat × String)) (cs : List Char) :
    List String :=
  match cs with
  | [] => []
  | c :: rest =>
      match m (c :: rest) with
      | some (n, s) => s :: findAllMatches m ((c :: rest).drop (max n 1))
      | none => findAllMatches m rest
termination_by cs.length
decreasing_by
  all_goals simp [List.length_drop]

/-- Embeds `extract_dates_and_times`: all matches of the fixed pattern list against
the lower-cased text, concatenated in pattern order. -/
def extractDatesAndTimes (text : String) : List String :=
  let t := (strLower text).data
  findAllMatches (wholeMatcher (mNumDate '/')) t
    ++ findAllMatches (wholeMatcher (mNumDate '-')) t
    ++ findAllMatches (wholeMatcher mIsoDate) t
    ++ findAllMatches (matchAnyLit ["today", "tomorrow", "yesterday"]) t
    ++ findAllMatches (matchAnyLit
        ["monday", "tuesday", "wednesday", "thursday", "friday", "saturday", "sunday"]) t
    ++ findAllMatches (matchAnyLit ["next week", "this week", "next month"]) t
    ++ findAllMatches timeMatcher t

/-! ### `context_processor.ContextProcessor.find_relevant_contexts` -/

/-- A context record, as consumed by `find_relevant_contexts`: the only field
the function reads is `keywords` (via `context.get('keywords', [])`). -/
structure ContextEntry where
  keywords : List String
deriving DecidableEq

/-- One relevance match produced by `find_relevant_contexts`. -/
structure RelevanceMatch where
  context : ContextEntry
  relevance_score : ℚ
  matching_keywords : List String
deriving DecidableEq

/-- Embeds `find_relevant_contexts`: keyword overlap ratio per entry, threshold 0.1,
stable descending sort by score, top 5.  The overlap is computed by
filtering the (already deduplicated) task keyword list, which has the same
cardinality as the Python set intersection. -/
def findRelevantContexts (taskContent : String) (entries : List ContextEntry) :
    List RelevanceMatch :=
  let taskKeywords := extractKeywords taskContent
  let relevant := entries.filterMap (fun ctx =>
    let overlap := taskKeywords.filter (fun k => ctx.keywords.contains k)
    let score : ℚ := (overlap.length : ℚ) / ((max taskKeywords.length 1 : Nat) : ℚ)
    if 1/10 < score then some ⟨ctx, score, overlap⟩ else none)
  (relevant.mergeSort
    (fun a b => decide (b.relevance_score ≤ a.relevance_score))).take 5

/-! ### `context_processor.ContextProcessor.process_context_entry` -/

/-- The AI-analysis sub-record of an insight: parsed JSON, or the raw
response under the `raw_response` key when `json.loads` fails, or the
`error` key when the surrounding `try` catches an exception. -/
inductive AIAnalysis (J : Type) where
  | parsed (insights : J)
  | rawResponse (raw : String)
  | error (msg : String)

/-- The insight record returned by `process_context_entry`. -/
structure ContextInsight (J : Type) where
  keywords : List String
  sentiment_score : ℚ
  priority_indicators : List String
  dates_mentioned : List String
  word_count : Nat
  has_deadline_mention : Bool
  urgency_level : Nat
  ai_analysis : AIAnalysis J

/-- First chunk of the `process_context_entry` prompt. -/
def contextPromptA : String := "\n            Analyze this "

/-- Chunk between source type and content of the `process_context_entry` prompt. -/
def contextPromptB : String :=
  " message and extract key insights:\n            \n            Content: \""

/-- Final chunk of the `process_context_entry` prompt. -/
def contextPromptC : String :=
  "\"\n            \n            Please identify:\n            1. Main topic or subject\n            2. Any mentioned deadlines or time constraints\n            3. Priority level (1-10)\n            4. Relevant project or category\n            5. Action items mentioned\n            \n            Respond in JSON format with keys: topic, deadlines, priority, category, actions\n            "

/-- The full `process_context_entry` prompt. -/
def contextPrompt (sourceType content : String) : String :=
  contextPromptA ++ strLower sourceType ++ contextPromptB ++ content ++ contextPromptC

/-- Embeds `process_context_entry`.  `json.loads` is abstracted as
`parse : String → Option J` (`none` = `json.JSONDecodeError`); the modelled
`analyze_with_ai` is total, so the outer `except` branch (the
`AIAnalysis.error` variant) is unreachable in the embedding, exactly as the
code makes it unreachable under non-raising gateway calls. -/
def processContextEntry {J : Type} (parse : String → Option J)
    (key : Option String) (net : Option (Nat × String)) (sec : Option String)
    (fb3 : String) (content sourceType : String) : ContextInsight J :=
  let aiResponse := analyzeWithAI key net sec fb3 (contextPrompt sourceType content)
  { keywords := extractKeywords content
    sentiment_score := analyzeSentiment content
    priority_indicators := detectPriorityIndicators content
    dates_mentioned := extractDatesAndTimes content
    word_count := (splitWs content).length
    has_deadline_mention := anyKeyword (strLower content) ["deadline", "due", "by"]
    urgency_level := calculateUrgency content
    ai_analysis :=
      match parse aiResponse with
      | some j => AIAnalysis.parsed j
      | none => AIAnalysis.rawResponse aiResponse }

/-! ### Helper lemmas: substring containment is monotone under concatenation -/

theorem listPrefixOf_append (n xs ys : List Char) (h : listPrefixOf n xs = true) :
    listPrefixOf n (xs ++ ys) = true := by
  induction n generalizing xs with
  | nil => simp [listPrefixOf]
  | cons a as ih =>
    cases xs with
    | nil => simp [listPrefixOf] at h
    | cons b bs =>
      simp only [listPrefixOf, Bool.and_eq_true, beq_iff_eq] at h
      simp only [List.cons_append, listPrefixOf, Bool.and_eq_true, beq_iff_eq]
      exact ⟨h.1, ih bs h.2⟩

theorem listContains_nil (l : List Char) : listContains [] l = true := by
  cases l <;> simp [listContains, listPrefixOf]

theorem listContains_append_left (n xs ys : List Char)
    (h : listContains n xs = true) : listContains n (xs ++ ys) = true := by
  induction xs with
  | nil =>
    cases n with
    | nil => exact listContains_nil ys
    | cons a as => simp [listContains, listPrefixOf] at h
  | cons x xs ih =>
    simp only [listContains, Bool.or_eq_true] at h
    rcases h with h | h
    · simp only [List.cons_append, listContains, Bool.or_eq_true]
      exact Or.inl (by simpa using listPrefixOf_append n (x :: xs) ys h)
    · simp only [List.cons_append, listContains, Bool.or_eq_true]
      exact Or.inr (ih h)

theorem listContains_append_right (n xs ys : List Char)
    (h : listContains n ys = true) : listContains n (xs ++ ys) = true := by
  induction xs with
  | nil => simpa using h
  | cons x xs ih =>
    simp only [List.cons_append, listContains, Bool.or_eq_true]
    exact Or.inr ih

theorem strLower_append_data (a b : String) :
    (strLower (a ++ b)).data = (strLower a).data ++ (strLower b).data := by
  cases a with
  | mk la =>
    cases b with
    | mk lb => simp [strLower, String.data]

theorem strContains_strLower_append_left (a b w : String)
    (h : strContains (strLower a) w = true) :
    strContains (strLower (a ++ b)) w = true := by
  unfold strContains at h ⊢
  rw [strLower_append_data]
  exact listContains_append_left _ _ _ h

theorem strContains_strLower_append_right (a b w : String)
    (h : strContains (strLower b) w = true) :
    strContains (strLower (a ++ b)) w = true := by
  unfold strContains at h ⊢
  rw [strLower_append_data]
  exact listContains_append_right _ _ _ h

/-! ### Helper lemmas: gateway behaviour on the task-analyzer prompts -/

theorem priorityPrompt_contains_priority (title desc ctxInfo : String) :
    strContains (strLower (priorityPrompt title desc ctxInfo)) "priority" = true := by
  unfold priorityPrompt
  apply strContains_strLower_append_left
  apply strContains_strLower_append_left
  apply strContains_strLower_append_left
  apply strContains_strLower_append_left
  apply strContains_strLower_append_left
  apply strContains_strLower_append_left
  decide

theorem deadlinePrompt_contains_deadline (t d : String) (w : Nat) :
    strContains (strLower (deadlinePrompt t d w)) "deadline" = true := by
  unfold deadlinePrompt
  apply strContains_strLower_append_left
  apply strContains_strLower_append_left
  apply strContains_strLower_append_left
  apply strContains_strLower_append_left
  apply strContains_strLower_append_left
  apply strContains_strLower_append_left
  decide

theorem analyzeWithAI_no_key (net : Option (Nat × String)) (sec : Option String)
    (fb3 prompt : String) :
    analyzeWithAI none net sec fb3 prompt = callLMStudio net fb3 prompt := by
  simp [analyzeWithAI]

theorem fallbackAnalysis_priorityPrompt (fb3 title desc ctx : String) :
    fallbackAnalysis fb3 (priorityPrompt title desc ctx) = "0.7" := by
  simp [fallbackAnalysis, priorityPrompt_contains_priority]

theorem fallbackAnalysis_deadlinePrompt (fb3 t d : String) (w : Nat)
    (hp : strContains (strLower (deadlinePrompt t d w)) "priority" = false) :
    fallbackAnalysis fb3 (deadlinePrompt t d w) = fb3 := by
  simp [fallbackAnalysis, hp, deadlinePrompt_contains_deadline]

theorem priorityFromAIResult_07 : priorityFromAIResult "0.7" = 7/10 := by
  have h1 : priorityFromAIResult "0.7"
      = (digitsVal (List.takeWhile Char.isDigit ['7']) : ℚ)
        / ((10 : ℚ) ^ (List.takeWhile Char.isDigit ['7']).length) := rfl
  have h2 : List.takeWhile Char.isDigit ['7'] = ['7'] := by decide
  have h3 : digitsVal ['7'] = 7 := by decide
  rw [h1, h2, h3]
  norm_num

theorem analyzeTaskPriorityUnavailable_eq (fb3 title desc : String) :
    analyzeTaskPriorityUnavailable fb3 title desc = 7/10 := by
  unfold analyzeTaskPriorityUnavailable
  rw [analyzeWithAI_no_key]
  show priorityFromAIResult (callLMStudio none fb3 _) = 7/10
  simp only [callLMStudio]
  rw [fallbackAnalysis_priorityPrompt]
  exact priorityFromAIResult_07

theorem suggestDeadlineUnavailableDays_eq (fb3 t d : String) (w y : Nat)
    (hp : strContains (strLower (deadlinePrompt t d w)) "priority" = false)
    (hy : firstNatRun fb3.data = some y) (h30 : 30 ≤ y) :
    suggestDeadlineUnavailableDays fb3 t d w = 30 := by
  unfold suggestDeadlineUnavailableDays
  rw [analyzeWithAI_no_key]
  show deadlineDaysFromAIResult (callLMStudio none fb3 _) = 30
  simp only [callLMStudio]
  rw [fallbackAnalysis_deadlinePrompt fb3 t d w hp]
  simp only [deadlineDaysFromAIResult, hy]
  omega

/-! ### Claim C1 -/

/-- C1 counterexample: with the AI service unavailable (request raises, no
key), `analyze_task_priority` on title "URGENT: fix this today" returns 0.7
— the gateway fallback string `"0.7"` parsed by the priority regex — not the
claimed fallback tier 0.9, because `analyze_with_ai` does not raise and so
`_calculate_fallback_priority` is never reached. -/
theorem c1_counterexample :
    analyzeTaskPriorityUnavailable "2026-10-15" "URGENT: fix this today" "" ≠ 9/10 ∧
    analyzeTaskPriorityUnavailable "2026-10-15" "URGENT: fix this today" "" = 7/10 := by
  rw [analyzeTaskPriorityUnavailable_eq]
  norm_num

/-- C1 (amended): when the AI service is unavailable `analyze_task_priority`
returns 0.7 for every title and description (the gateway fallback `"0.7"` is
parsed by the priority regex); the deterministic fallback function
`_calculate_fallback_priority` — unreached on mere unavailability — yields
exactly the tier values: 0.9 for urgent/critical/asap/emergency,
0.7 for important/priority/deadline, 0.6 for meeting/call/presentation,
else 0.5, as the representative inputs per category show. -/
theorem c1_amended :
    (∀ fb3 title desc : String,
        analyzeTaskPriorityUnavailable fb3 title desc = 7/10) ∧
    calculateFallbackPriority "URGENT: fix this today" "" = 9/10 ∧
    calculateFallbackPriority "Submit report" "there is a deadline" = 7/10 ∧
    calculateFallbackPriority "team meeting" "with staff" = 6/10 ∧
    calculateFallbackPriority "water plants" "sometime" = 1/2 := by
  refine ⟨analyzeTaskPriorityUnavailable_eq, ?_, ?_, ?_, ?_⟩
  · have h1 : anyKeyword (strLower "URGENT: fix this today ")
        ["urgent", "critical", "asap", "emergency"] = true := by decide
    simp [calculateFallbackPriority, h1]
  · have h1 : anyKeyword (strLower "Submit report there is a deadline")
        ["urgent", "critical", "asap", "emergency"] = false := by decide
    have h2 : anyKeyword (strLower "Submit report there is a deadline")
        ["important", "priority", "deadline"] = true := by decide
    simp [calculateFallbackPriority, h1, h2]
  · have h1 : anyKeyword (strLower "team meeting with staff")
        ["urgent", "critical", "asap", "emergency"] = false := by decide
    have h2 : anyKeyword (strLower "team meeting with staff")
        ["important", "priority", "deadline"] = false := by decide
    have h3 : anyKeyword (strLower "team meeting with staff")
        ["meeting", "call", "presentation"] = true := by decide
    simp [calculateFallbackPriority, h1, h2, h3]
  · have h1 : anyKeyword (strLower "water plants sometime")
        ["urgent", "critical", "asap", "emergency"] = false := by decide
    have h2 : anyKeyword (strLower "water plants sometime")
        ["important", "priority", "deadline"] = false := by decide
    have h3 : anyKeyword (strLower "water plants sometime")
        ["meeting", "call", "presentation"] = false := by decide
    simp [calculateFallbackPriority, h1, h2, h3]

/-! ### Claim C2 -/

set_option maxRecDepth 40000 in
/-- C2 counterexample: with the AI service unavailable, `suggest_deadline` on
description "please do this asap" returns now + 30 days, not now + 1 day:
`analyze_with_ai` does not raise, so the gateway fallback date string
(here "2026-10-15") is parsed, its leading 4-digit year is the first integer,
and it is clamped to the 30-day cap. -/
theorem c2_counterexample :
    suggestDeadlineUnavailableDays "2026-10-15" "Fix the bug" "please do this asap" 5 ≠ 1 ∧
    suggestDeadlineUnavailableDays "2026-10-15" "Fix the bug" "please do this asap" 5 = 30 := by
  have h := suggestDeadlineUnavailableDays_eq "2026-10-15" "Fix the bug"
    "please do this asap" 5 2026 (by decide) (by decide) (by decide)
  rw [h]
  omega

/-- C2 (amended): when the AI service is unavailable, `suggest_deadline`
returns now + 30 days whenever the task text does not smuggle the word
"priority" into the prompt and the gateway fallback date string starts with
a number ≥ 30 (its 4-digit year); the deterministic fallback
`_calculate_fallback_deadline` — unreached on mere unavailability — yields
the tier offsets +1 (urgent/asap/today, in particular "please do this
asap"), +2 (tomorrow/soon), +7 (week/weekly), else +3. -/
theorem c2_amended :
    (∀ (fb3 t d : String) (w y : Nat),
        strContains (strLower (deadlinePrompt t d w)) "priority" = false →
        firstNatRun fb3.data = some y → 30 ≤ y →
        suggestDeadlineUnavailableDays fb3 t d w = 30) ∧
    calculateFallbackDeadlineDays "please do this asap" = 1 ∧
    calculateFallbackDeadlineDays "do it tomorrow" = 2 ∧
    calculateFallbackDeadlineDays "weekly report" = 7 ∧
    calculateFallbackDeadlineDays "whenever" = 3 := by
  refine ⟨suggestDeadlineUnavailableDays_eq, ?_, ?_, ?_, ?_⟩ <;> decide

set_option maxRecDepth 40000 in
/-- C2 witness: the amended statement applied at a concrete unavailable-AI
deadline suggestion. -/
theorem c2_witness :
    suggestDeadlineUnavailableDays "1999-01-02" "Write tests" "finish this soon" 7 = 30 :=
  c2_amended.1 "1999-01-02" "Write tests" "finish this soon" 7 1999
    (by decide) (by decide) (by decide)

/-! ### Claim C3 -/

/-- C3: the gateway completion operation is total (never raises): on any
failure — request exception or non-200 status — `call_lm_studio` returns the
deterministic fallback string derived from the prompt; with the primary
unreachable and no secondary credential, a prompt containing "priority"
yields exactly "0.7"; and the fallback tiers "0.7" / date / "General" /
"task, general" / sentinel are checked in that order. -/
theorem c3_gateway_fallback :
    (∀ (fb3 prompt : String) (net : Option (Nat × String)),
        (net = none ∨ ∃ s t, net = some (s, t) ∧ s ≠ 200) →
        callLMStudio net fb3 prompt = fallbackAnalysis fb3 prompt) ∧
    (∀ fb3 prompt : String, strContains (strLower prompt) "priority" = true →
        analyzeWithAI none none none fb3 prompt = "0.7") ∧
    (∀ fb3 prompt : String, strContains (strLower prompt) "priority" = true →
        fallbackAnalysis fb3 prompt = "0.7") ∧
    (∀ fb3 prompt : String, strContains (strLower prompt) "priority" = false →
        strContains (strLower prompt) "deadline" = true →
        fallbackAnalysis fb3 prompt = fb3) ∧
    (∀ fb3 prompt : String, strContains (strLower prompt) "priority" = false →
        strContains (strLower prompt) "deadline" = false →
        strContains (strLower prompt) "category" = true →
        fallbackAnalysis fb3 prompt = "General") ∧
    (∀ fb3 prompt : String, strContains (strLower prompt) "priority" = false →
        strContains (strLower prompt) "deadline" = false →
        strContains (strLower prompt) "category" = false →
        strContains (strLower prompt) "tags" = true →
        fallbackAnalysis fb3 prompt = "task, general") ∧
    (∀ fb3 prompt : String, strContains (strLower prompt) "priority" = false →
        strContains (strLower prompt) "deadline" = false →
        strContains (strLower prompt) "category" = false →
        strContains (strLower prompt) "tags" = false →
        fallbackAnalysis fb3 prompt = unavailableSentinel) := by
  refine ⟨?_, ?_, ?_, ?_, ?_, ?_, ?_⟩
  · intro fb3 prompt net h
    rcases h with h | ⟨s, t, h, hs⟩
    · simp [h, callLMStudio]
    · have hb : (s == 200) = false := by simpa using hs
      simp [h, callLMStudio, hb]
  · intro fb3 prompt h
    rw [analyzeWithAI_no_key]
    simp [callLMStudio, fallbackAnalysis, h]
  · intro fb3 prompt h
    simp [fallbackAnalysis, h]
  · intro fb3 prompt h1 h2
    simp [fallbackAnalysis, h1, h2]
  · intro fb3 prompt h1 h2 h3
    simp [fallbackAnalysis, h1, h2, h3]
  · intro fb3 prompt h1 h2 h3 h4
    simp [fallbackAnalysis, h1, h2, h3, h4]
  · intro fb3 prompt h1 h2 h3 h4
    simp [fallbackAnalysis, h1, h2, h3, h4]

/-- C3 witness: the gateway contract applied at concrete failures. -/
theorem c3_witness :
    callLMStudio none "2026-01-01" "p" = fallbackAnalysis "2026-01-01" "p" ∧
    analyzeWithAI none none none "2026-01-01" "rate the priority" = "0.7" ∧
    fallbackAnalysis "2026-01-01" "suggest tags now" = "task, general" :=
  ⟨c3_gateway_fallback.1 "2026-01-01" "p" none (Or.inl rfl),
   c3_gateway_fallback.2.1 "2026-01-01" "rate the priority" (by decide),
   c3_gateway_fallback.2.2.2.2.2.1 "2026-01-01" "suggest tags now"
     (by decide) (by decide) (by decide) (by decide)⟩

/-! ### Claim C4 -/

/-- C4 counterexample: the secondary provider is attempted (and its answer
returned) on a successful HTTP-200 primary response that merely CONTAINS the
text "Analysis unavailable" without being EQUAL to the unavailability
sentinel — refuting "exactly when the primary call's result equals the
unavailability sentinel". -/
theorem c4_counterexample :
    analyzeWithAI (some "k") (some (200, "Analysis unavailable today: 42"))
        (some "0.9") "2026-01-01" "p" = "0.9" ∧
    callLMStudio (some (200, "Analysis unavailable today: 42")) "2026-01-01" "p"
      ≠ unavailableSentinel ∧
    callLMStudio (some (200, "Analysis unavailable today: 42")) "2026-01-01" "p"
      ≠ "0.9" := by
  refine ⟨?_, ?_, ?_⟩ <;> decide

/-- C4 (amended): the gateway attempts the primary endpoint first and uses
the secondary provider's result exactly when the primary result CONTAINS the
substring "Analysis unavailable" and a secondary credential is configured;
when the secondary attempt itself raises, the caller receives the
primary/local fallback output (a fresh `call_lm_studio` result), never an
exception. -/
theorem c4_amended :
    ∀ (key : Option String) (net : Option (Nat × String)) (sec : Option String)
      (fb3 prompt : String),
      (analyzeWithAI key net sec fb3 prompt =
        if strContains (callLMStudio net fb3 prompt) "Analysis unavailable" && key.isSome
        then callOpenAI key net sec fb3 prompt
        else callLMStudio net fb3 prompt) ∧
      (callOpenAI key net none fb3 prompt = callLMStudio net fb3 prompt) ∧
      (strContains (callLMStudio net fb3 prompt) "Analysis unavailable" = false →
        analyzeWithAI key net sec fb3 prompt = callLMStudio net fb3 prompt) ∧
      (∀ c, sec = some c →
        strContains (callLMStudio net fb3 prompt) "Analysis unavailable" = true →
        key.isSome = true →
        analyzeWithAI key net sec fb3 prompt = strStrip c) := by
  intro key net sec fb3 prompt
  refine ⟨rfl, ?_, ?_, ?_⟩
  · cases key with
    | none => rfl
    | some k => simp [callOpenAI]
  · intro h
    simp [analyzeWithAI, h]
  · intro c hc hcontains hkey
    subst hc
    cases key with
    | none => simp at hkey
    | some k => simp [analyzeWithAI, callOpenAI, hcontains]

/-- C4 witness: the amended chain applied where the primary is unreachable
(sentinel produced), a key is configured and the secondary succeeds. -/
theorem c4_witness :
    analyzeWithAI (some "sk") none (some "resp") "2026-01-01" "hello" = strStrip "resp" :=
  (c4_amended (some "sk") none (some "resp") "2026-01-01" "hello").2.2.2 "resp"
    rfl (by decide) rfl

/-! ### Claim C5 -/

/-- C5: `_calculate_urgency` always returns an integer in [1,10], built from
base 1, the +4 / +2 keyword tiers, the mutually exclusive +3 today / +2
tomorrow branch, and `min(count of bang, 2)`, clamped to 10; the input
"URGENT!!! today" yields 1+4+3+min(3,2) = 10. -/
theorem c5_urgency :
    (∀ text : String, 1 ≤ calculateUrgency text ∧ calculateUrgency text ≤ 10) ∧
    calculateUrgency "URGENT!!! today" = 10 := by
  constructor
  · intro text
    unfold calculateUrgency
    refine ⟨?_, Nat.min_le_right _ _⟩
    split_ifs <;> omega
  · decide

/-! ### Claim C7 -/

/-- C7: `process_context_entry` always returns a full insight record; when
the AI response does not parse as JSON the raw response text is stored under
the error-tagged `raw_response` field of the AI-analysis sub-record instead
of being discarded or raised, and the deterministic feature fields are
unaffected. -/
theorem c7_insight_parse_failure :
    ∀ (J : Type) (parse : String → Option J) (key : Option String)
      (net : Option (Nat × String)) (sec : Option String)
      (fb3 content sourceType : String),
      parse (analyzeWithAI key net sec fb3 (contextPrompt sourceType content)) = none →
      (processContextEntry parse key net sec fb3 content sourceType).ai_analysis
          = AIAnalysis.rawResponse
              (analyzeWithAI key net sec fb3 (contextPrompt sourceType content)) ∧
      (processContextEntry parse key net sec fb3 content sourceType).keywords
          = extractKeywords content ∧
      (processContextEntry parse key net sec fb3 content sourceType).sentiment_score
          = analyzeSentiment content ∧
      (processContextEntry parse key net sec fb3 content sourceType).urgency_level
          = calculateUrgency content ∧
      (processContextEntry parse key net sec fb3 content sourceType).word_count
          = (splitWs content).length := by
  intro J parse key net sec fb3 content sourceType h
  unfold processContextEntry
  simp [h]

/-- C7 witness: a concrete unparsable response is kept verbatim under the
`raw_response` variant. -/
theorem c7_witness :
    (processContextEntry (J := Nat) (fun _ => none) none none none "2026-01-01"
        "call me about the deadline today" "email").ai_analysis
      = AIAnalysis.rawResponse
          (analyzeWithAI none none none "2026-01-01"
            (contextPrompt "email" "call me about the deadline today")) :=
  (c7_insight_parse_failure Nat (fun _ => none) none none none "2026-01-01"
      "call me about the deadline today" "email" rfl).1

/-! ### Claim C8 -/

/-- C8: `analyze_sentiment` always returns a value in [0,1]; it returns
exactly 0.5 when no positive-list and no negative-list word occurs as a
substring of the lower-cased text, and otherwise positive/(positive+negative)
where each side counts the list words present by substring containment. -/
theorem c8_sentiment :
    ∀ text : String,
      0 ≤ analyzeSentiment text ∧ analyzeSentiment text ≤ 1 ∧
      (wordScore (strLower text) positiveWords
          + wordScore (strLower text) negativeWords = 0 →
        analyzeSentiment text = 1/2) ∧
      (wordScore (strLower text) positiveWords
          + wordScore (strLower text) negativeWords ≠ 0 →
        analyzeSentiment text
          = (wordScore (strLower text) positiveWords : ℚ)
            / ((wordScore (strLower text) positiveWords : ℚ)
                + (wordScore (strLower text) negativeWords : ℚ))) := by
  intro text
  by_cases h : wordScore (strLower text) positiveWords
      + wordScore (strLower text) negativeWords = 0
  · have hs : analyzeSentiment text = 1/2 := by
      unfold analyzeSentiment
      simp [h]
    exact ⟨by rw [hs]; norm_num, by rw [hs]; norm_num, fun _ => hs,
      fun hc => absurd h hc⟩
  · have hq : (0 : ℚ) < (wordScore (strLower text) positiveWords : ℚ)
        + (wordScore (strLower text) negativeWords : ℚ) := by
      have h0 : 0 < wordScore (strLower text) positiveWords
          + wordScore (strLower text) negativeWords := Nat.pos_of_ne_zero h
      exact_mod_cast h0
    have hs : analyzeSentiment text
        = (wordScore (strLower text) positiveWords : ℚ)
          / ((wordScore (strLower text) positiveWords : ℚ)
              + (wordScore (strLower text) negativeWords : ℚ)) := by
      unfold analyzeSentiment
      simp [h]
    refine ⟨?_, ?_, fun hc => absurd hc h, fun _ => hs⟩
    · rw [hs]
      exact div_nonneg (Nat.cast_nonneg _) (le_of_lt hq)
    · rw [hs]
      exact (div_le_one hq).mpr (le_add_of_nonneg_right (Nat.cast_nonneg _))

/-- C8 witness: a text with no sentiment words scores exactly 0.5. -/
theorem c8_witness : analyzeSentiment "nothing here" = 1/2 :=
  (c8_sentiment "nothing here").2.2.1 (by decide)

/-! ### Claim C9 -/

theorem take3_task_len_bounds (tags : List String) :
    1 ≤ ((if tags.isEmpty then ["task"] else tags).take 3).length ∧
    ((if tags.isEmpty then ["task"] else tags).take 3).length ≤ 3 := by
  by_cases h : tags.isEmpty
  · simp [h]
  · have hlen : 0 < tags.length := by
      cases tags with
      | nil => simp at h
      | cons a l => simp
    simp [h, List.length_take]
    omega

/-- C9: the fallback tag suggester returns between 1 and 3 tags on every
input, while the AI-backed parsing path returns at most 5 tags — the 3
versus 5 cap asymmetry holds on every input. -/
theorem c9_tag_caps :
    ∀ title desc aiResult : String,
      1 ≤ (suggestFallbackTags title desc).length ∧
      (suggestFallbackTags title desc).length ≤ 3 ∧
      (tagsFromAIResult aiResult).length ≤ 5 := by
  intro title desc aiResult
  refine ⟨(take3_task_len_bounds _).1, (take3_task_len_bounds _).2, ?_⟩
  unfold tagsFromAIResult
  simp [List.length_take]

/-! ### Claim C10 -/

/-- C10: for every configuration, network outcome and AI response string,
`suggest_deadline` produces a day offset between 0 and 30 inclusive: the AI
path clamps the first extracted integer at 30 and defaults to 3 when no
integer is found, and every deterministic fallback branch adds 1, 2, 7 or 3
days. -/
theorem c10_deadline_bounds :
    (∀ (key : Option String) (net : Option (Nat × String)) (sec : Option String)
        (fb3 title desc : String) (workload : Nat),
        suggestDeadlineDays key net sec fb3 title desc workload ≤ 30) ∧
    (∀ result : String, deadlineDaysFromAIResult result ≤ 30) ∧
    (∀ result : String, firstNatRun result.data = none →
        deadlineDaysFromAIResult result = 3) ∧
    (∀ d : String, 1 ≤ calculateFallbackDeadlineDays d ∧
        calculateFallbackDeadlineDays d ≤ 7) := by
  have hb : ∀ result : String, deadlineDaysFromAIResult result ≤ 30 := by
    intro result
    cases h : firstNatRun result.data with
    | none => simp only [deadlineDaysFromAIResult, h]; omega
    | some d => simp only [deadlineDaysFromAIResult, h]; omega
  refine ⟨fun key net sec fb3 title desc workload => hb _, hb, ?_, ?_⟩
  · intro result h
    simp [deadlineDaysFromAIResult, h]
  · intro d
    simp only [calculateFallbackDeadlineDays]
    split_ifs <;> omega

/-- C10 witness: a response without any integer falls back to the 3-day
default. -/
theorem c10_witness : deadlineDaysFromAIResult "no digits at all" = 3 :=
  c10_deadline_bounds.2.2.1 "no digits at all" (by decide)

/-! ### Claim C6 -/

theorem relevance_score_le_one (tk ck : List String) :
    ((tk.filter (fun k => ck.contains k)).length : ℚ)
      / ((max tk.length 1 : ℕ) : ℚ) ≤ 1 := by
  apply div_le_one_of_le₀
  · exact_mod_cast le_trans (List.length_filter_le _ _) (Nat.le_max_left _ _)
  · exact Nat.cast_nonneg _

theorem findRelevantContexts_mem (taskContent : String) (entries : List ContextEntry)
    (m : RelevanceMatch) (hm : m ∈ findRelevantContexts taskContent entries) :
    1/10 < m.relevance_score ∧ m.relevance_score ≤ 1 := by
  have hm1 : m ∈ List.mergeSort
      (entries.filterMap (fun ctx =>
        let overlap := (extractKeywords taskContent).filter
          (fun k => ctx.keywords.contains k)
        let score : ℚ := (overlap.length : ℚ)
          / ((max (extractKeywords taskContent).length 1 : Nat) : ℚ)
        if 1/10 < score then some ⟨ctx, score, overlap⟩ else none))
      (fun a b => decide (b.relevance_score ≤ a.relevance_score)) :=
    List.take_subset _ _ hm
  rw [List.mem_mergeSort] at hm1
  obtain ⟨ctx, hctx, hf⟩ := List.mem_filterMap.mp hm1
  try dsimp only at hf
  split at hf
  · rename_i hscore
    cases hf
    exact ⟨hscore, relevance_score_le_one _ _⟩
  · exact absurd hf (by simp)

theorem findRelevantContexts_sorted (taskContent : String) (entries : List ContextEntry) :
    (findRelevantContexts taskContent entries).Pairwise
      (fun a b => b.relevance_score ≤ a.relevance_score) := by
  have hsorted := @List.sorted_mergeSort RelevanceMatch
    (fun a b => decide (b.relevance_score ≤ a.relevance_score))
    (fun a b c hab hbc => by
      simp only [decide_eq_true_eq] at hab hbc ⊢
      exact le_trans hbc hab)
    (fun a b => by
      simp only [Bool.or_eq_true, decide_eq_true_eq]
      exact le_total _ _)
    (entries.filterMap (fun ctx =>
      let overlap := (extractKeywords taskContent).filter
        (fun k => ctx.keywords.contains k)
      let score : ℚ := (overlap.length : ℚ)
        / ((max (extractKeywords taskContent).length 1 : Nat) : ℚ)
      if 1/10 < score then some ⟨ctx, score, overlap⟩ else none))
  exact (hsorted.imp (fun hab => of_decide_eq_true hab)).sublist
    (List.take_sublist 5 _)

theorem findRelevantContexts_empty_keywords (taskContent : String)
    (entries : List ContextEntry) (h : extractKeywords taskContent = []) :
    findRelevantContexts taskContent entries = [] := by
  rw [List.eq_nil_iff_forall_not_mem]
  intro m hm
  have hm1 : m ∈ List.mergeSort
      (entries.filterMap (fun ctx =>
        let overlap := (extractKeywords taskContent).filter
          (fun k => ctx.keywords.contains k)
        let score : ℚ := (overlap.length : ℚ)
          / ((max (extractKeywords taskContent).length 1 : Nat) : ℚ)
        if 1/10 < score then some ⟨ctx, score, overlap⟩ else none))
      (fun a b => decide (b.relevance_score ≤ a.relevance_score)) :=
    List.take_subset _ _ hm
  rw [List.mem_mergeSort] at hm1
  obtain ⟨ctx, hctx, hf⟩ := List.mem_filterMap.mp hm1
  try dsimp only at hf
  split at hf
  · rename_i hscore
    rw [h] at hscore
    norm_num at hscore
  · exact absurd hf (by simp)

theorem c6_example :
    findRelevantContexts "meeting project"
        [⟨["meeting", "lunch"]⟩, ⟨["lunch", "food"]⟩]
      = [⟨⟨["meeting", "lunch"]⟩, 1/2, ["meeting"]⟩] := by
  have hkw : extractKeywords "meeting project" = ["meeting", "project"] := by decide
  have hne1 : ("project" : String) ≠ "meeting" := by decide
  have hne2 : ("project" : String) ≠ "lunch" := by decide
  have hne3 : ("meeting" : String) ≠ "lunch" := by decide
  have hne4 : ("meeting" : String) ≠ "food" := by decide
  have hne5 : ("project" : String) ≠ "food" := by decide
  simp only [findRelevantContexts, hkw]
  norm_num [List.filterMap_cons, List.filter_cons, List.filter_nil,
    hne1, hne2, hne3, hne4, hne5]

/-- C6: `find_relevant_contexts` returns at most 5 matches, sorted descending
by relevance score, every returned score exceeds the 0.1 threshold and lies
in (0,1]; a task "meeting project" against an entry with keywords
meeting/lunch yields relevance 0.5 and is included while a no-overlap entry
is excluded; and an empty task keyword set yields the empty result. -/
theorem c6_relevance_ranker :
    (∀ (taskContent : String) (entries : List ContextEntry),
        (findRelevantContexts taskContent entries).length ≤ 5) ∧
    (∀ (taskContent : String) (entries : List ContextEntry),
        (findRelevantContexts taskContent entries).Pairwise
          (fun a b => b.relevance_score ≤ a.relevance_score)) ∧
    (∀ (taskContent : String) (entries : List ContextEntry)
        (m : RelevanceMatch), m ∈ findRelevantContexts taskContent entries →
        1/10 < m.relevance_score ∧ 0 < m.relevance_score ∧ m.relevance_score ≤ 1) ∧
    (∀ (taskContent : String) (entries : List ContextEntry),
        extractKeywords taskContent = [] →
        findRelevantContexts taskContent entries = []) ∧
    findRelevantContexts "meeting project"
        [⟨["meeting", "lunch"]⟩, ⟨["lunch", "food"]⟩]
      = [⟨⟨["meeting", "lunch"]⟩, 1/2, ["meeting"]⟩] := by
  refine ⟨?_, findRelevantContexts_sorted, ?_, findRelevantContexts_empty_keywords,
    c6_example⟩
  · intro taskContent entries
    simp only [findRelevantContexts]
    exact le_trans (List.length_take_le _ _) (le_refl 5)
  · intro taskContent entries m hm
    obtain ⟨h1, h2⟩ := findRelevantContexts_mem taskContent entries m hm
    exact ⟨h1, lt_trans (by norm_num) h1, h2⟩

/-- C6 witness: the membership and empty-keyword statements applied at
concrete inputs. -/
theorem c6_witness :
    (1/10 < (⟨⟨["meeting", "lunch"]⟩, 1/2, ["meeting"]⟩ : RelevanceMatch).relevance_score ∧
      0 < (⟨⟨["meeting", "lunch"]⟩, 1/2, ["meeting"]⟩ : RelevanceMatch).relevance_score ∧
      (⟨⟨["meeting", "lunch"]⟩, 1/2, ["meeting"]⟩ : RelevanceMatch).relevance_score ≤ 1) ∧
    findRelevantContexts "a an to" [⟨["meeting", "lunch"]⟩] = [] :=
  ⟨c6_relevance_ranker.2.2.1 "meeting project"
      [⟨["meeting", "lunch"]⟩, ⟨["lunch", "food"]⟩]
      ⟨⟨["meeting", "lunch"]⟩, 1/2, ["meeting"]⟩
      (by rw [c6_relevance_ranker.2.2.2.2]; exact List.mem_singleton.mpr rfl),
   c6_relevance_ranker.2.2.2.1 "a an to" [⟨["meeting", "lunch"]⟩] (by decide)⟩

end Smart
